import Mathlib

/-!
Shallow embedding of `bin/weectllib/database_cmd.py` from the WeeWX repository.

The Python file registers six argparse subcommands under the `database` command
group (`create`, `drop-daily`, `rebuild-daily`, `add-column`, `rename-column`,
`drop-columns`) and binds each to a thin dispatch function that forwards the
parsed namespace fields to a collaborator module (`weectllib.db_actions`).

Modelling choices:
* A parsed argparse namespace becomes a Lean structure, one per subcommand
  shape (`create` and `drop-daily` share the same flag set, hence one shape).
* A command-line invocation is abstracted as a record of which flags were
  supplied and with which values (`Option String` for value-taking flags,
  `Bool` for the presence of the `store_true` flag `--dry-run`, `List String`
  for the `nargs="+"` positional).  The argparse behaviour configured by the
  source (defaults, `choices` exact-string matching, `required=True`,
  `nargs="+"` needing at least one value, a positional being mandatory) is
  transcribed into a `parse…` function per subcommand returning
  `Option` of the namespace, `none` meaning argparse would exit with an error.
* Each dispatch function becomes a Lean function from the namespace to a
  record of the keyword arguments of the one collaborator call it makes.
* Python's `str.upper()` is modelled by mapping `Char.toUpper` over the
  characters; this agrees with Python on the ASCII strings this module
  handles (the `--type` choices).
* The subparser group is created without `required=True`; since Python 3.3
  argparse then treats the action subcommand as optional, so an invocation
  naming no action parses successfully with `action=None` and no `func`
  bound.  `parseDatabase` models this with the `ParsedAction.noAction`
  result.
-/

namespace DatabaseCmd

/-- Model of Python `str.upper()` (exact on ASCII, which covers every string
this module ever upper-cases). -/
def pyUpper (s : String) : String := ⟨s.data.map Char.toUpper⟩

/-- All casings of a character list: each letter independently lower- or
upper-cased.  Used to state "the word `w` in any letter case". -/
def casings : List Char → List (List Char)
  | [] => [[]]
  | c :: cs => (casings cs).flatMap fun v => [Char.toLower c :: v, Char.toUpper c :: v]

/-- All letter-case variants of a word. -/
def caseVariants (w : String) : List String := (casings w.data).map fun l => ⟨l⟩

/-! ### Parsed namespaces (the argparse `Namespace` after a successful parse) -/

/-- Namespace shape shared by the `create` and `drop-daily` subcommands:
`--config`, `--binding` (default `wx_binding`), `--dry-run`. -/
structure SimpleNS where
  config : Option String
  binding : String
  dry_run : Bool

/-- Namespace of `rebuild-daily`: adds `--date`, `--from` (dest `from_date`)
and `--to` (dest `to_date`), all optional with no default. -/
structure RebuildNS where
  config : Option String
  binding : String
  date : Option String
  from_date : Option String
  to_date : Option String
  dry_run : Bool

/-- Namespace of `add-column`: positional `column_name` and `--type`
(dest `column_type`, default `REAL`). -/
structure AddColumnNS where
  config : Option String
  binding : String
  column_name : String
  column_type : String
  dry_run : Bool

/-- Namespace of `rename-column`: positional `column_name` (FROM-NAME) and
required `--to-name` (dest `new_name`). -/
structure RenameNS where
  config : Option String
  binding : String
  column_name : String
  new_name : String
  dry_run : Bool

/-- Namespace of `drop-columns`: positional `column_names` with `nargs="+"`. -/
structure DropColumnsNS where
  config : Option String
  binding : String
  column_names : List String
  dry_run : Bool

/-! ### Collaborator calls (`weectllib.db_actions`)

Each structure records the arguments of the one call a dispatch function
makes: the positional `config_path` plus the keyword arguments, under the
collaborator's parameter names. -/

/-- Arguments of `db_actions.create_database` and `db_actions.drop_daily`. -/
structure SimpleCall where
  config : Option String
  db_binding : String
  dry_run : Bool

/-- Arguments of `db_actions.rebuild_daily`. -/
structure RebuildCall where
  config : Option String
  db_binding : String
  date : Option String
  from_date : Option String
  to_date : Option String
  dry_run : Bool

/-- Arguments of `db_actions.add_column`. -/
structure AddColumnCall where
  config : Option String
  db_binding : String
  column_name : String
  column_type : String
  dry_run : Bool

/-- Arguments of `db_actions.rename_column`. -/
structure RenameCall where
  config : Option String
  db_binding : String
  column_name : String
  new_name : String
  dry_run : Bool

/-- Arguments of `db_actions.drop_columns`. -/
structure DropColumnsCall where
  config : Option String
  db_binding : String
  column_names : List String
  dry_run : Bool

/-! ### Dispatch functions (lines 222-270 of the source) -/

/-- `create_database(namespace)`: forwards config, binding, dry_run. -/
def create_database (ns : SimpleNS) : SimpleCall :=
  { config := ns.config, db_binding := ns.binding, dry_run := ns.dry_run }

/-- `drop_daily(namespace)`: forwards config, binding, dry_run. -/
def drop_daily (ns : SimpleNS) : SimpleCall :=
  { config := ns.config, db_binding := ns.binding, dry_run := ns.dry_run }

/-- `rebuild_daily(namespace)`: forwards config, binding, date, from_date,
to_date, dry_run. -/
def rebuild_daily (ns : RebuildNS) : RebuildCall :=
  { config := ns.config, db_binding := ns.binding, date := ns.date,
    from_date := ns.from_date, to_date := ns.to_date, dry_run := ns.dry_run }

/-- `add_column(namespace)`: upper-cases `column_type`, maps `INT` to
`INTEGER`, then forwards all fields. -/
def add_column (ns : AddColumnNS) : AddColumnCall :=
  let column_type := pyUpper ns.column_type
  let column_type := if column_type = "INT" then "INTEGER" else column_type
  { config := ns.config, db_binding := ns.binding, column_name := ns.column_name,
    column_type := column_type, dry_run := ns.dry_run }

/-- `rename_column(namespace)`: forwards config, binding, column_name,
new_name, dry_run. -/
def rename_column (ns : RenameNS) : RenameCall :=
  { config := ns.config, db_binding := ns.binding, column_name := ns.column_name,
    new_name := ns.new_name, dry_run := ns.dry_run }

/-- `drop_columns(namespace)`: forwards config, binding, column_names,
dry_run. -/
def drop_columns (ns : DropColumnsNS) : DropColumnsCall :=
  { config := ns.config, db_binding := ns.binding, column_names := ns.column_names,
    dry_run := ns.dry_run }

/-! ### Invocations and parsers -/

/-- Flags supplied on a `create` or `drop-daily` invocation. -/
structure SimpleInv where
  config : Option String
  binding : Option String
  dry_run : Bool

/-- Flags supplied on a `rebuild-daily` invocation. -/
structure RebuildInv where
  config : Option String
  binding : Option String
  date : Option String
  from_date : Option String
  to_date : Option String
  dry_run : Bool

/-- Flags supplied on an `add-column` invocation.  `column_name` is the
positional argument (`none` when absent). -/
structure AddColumnInv where
  column_name : Option String
  column_type : Option String
  config : Option String
  binding : Option String
  dry_run : Bool

/-- Flags supplied on a `rename-column` invocation. -/
structure RenameInv where
  column_name : Option String
  new_name : Option String
  config : Option String
  binding : Option String
  dry_run : Bool

/-- Flags supplied on a `drop-columns` invocation. -/
structure DropColumnsInv where
  column_names : List String
  config : Option String
  binding : Option String
  dry_run : Bool

/-- The literal `choices` list of `--type` in the `add-column` parser
declaration (line 150 of the source).  argparse matches choices by exact
string equality. -/
def typeChoices : List String := ["REAL", "INTEGER", "real", "integer", "int"]

/-- Parser of the `create` subcommand: no required flags, `--binding`
defaults to `wx_binding`. -/
def parseCreate (inv : SimpleInv) : Option SimpleNS :=
  some { config := inv.config, binding := inv.binding.getD "wx_binding",
         dry_run := inv.dry_run }

/-- Parser of the `drop-daily` subcommand: same flag set as `create`. -/
def parseDropDaily (inv : SimpleInv) : Option SimpleNS :=
  some { config := inv.config, binding := inv.binding.getD "wx_binding",
         dry_run := inv.dry_run }

/-- Parser of the `rebuild-daily` subcommand: `--date`, `--from`, `--to` are
all plain optional flags; no mutually-exclusive group is declared, so any
combination parses. -/
def parseRebuildDaily (inv : RebuildInv) : Option RebuildNS :=
  some { config := inv.config, binding := inv.binding.getD "wx_binding",
         date := inv.date, from_date := inv.from_date, to_date := inv.to_date,
         dry_run := inv.dry_run }

/-- Parser of the `add-column` subcommand: the positional `column_name` is
mandatory; `--type` defaults to `REAL` and, when supplied, must be exactly
one of `typeChoices`. -/
def parseAddColumn (inv : AddColumnInv) : Option AddColumnNS :=
  match inv.column_name with
  | none => none
  | some name =>
    match inv.column_type with
    | none =>
        some { config := inv.config, binding := inv.binding.getD "wx_binding",
               column_name := name, column_type := "REAL", dry_run := inv.dry_run }
    | some t =>
        if t ∈ typeChoices then
          some { config := inv.config, binding := inv.binding.getD "wx_binding",
                 column_name := name, column_type := t, dry_run := inv.dry_run }
        else none

/-- Parser of the `rename-column` subcommand: the positional `column_name`
is mandatory and `--to-name` is declared `required=True`. -/
def parseRenameColumn (inv : RenameInv) : Option RenameNS :=
  match inv.column_name, inv.new_name with
  | some c, some n =>
      some { config := inv.config, binding := inv.binding.getD "wx_binding",
             column_name := c, new_name := n, dry_run := inv.dry_run }
  | _, _ => none

/-- Parser of the `drop-columns` subcommand: `nargs="+"` requires at least
one positional name. -/
def parseDropColumns (inv : DropColumnsInv) : Option DropColumnsNS :=
  if inv.column_names = [] then none
  else
    some { config := inv.config, binding := inv.binding.getD "wx_binding",
           column_names := inv.column_names, dry_run := inv.dry_run }

/-! ### The `database` command group -/

/-- An invocation of the `database` command group that names one of the six
actions, with that action's flags. -/
inductive ActionInv where
  | create (inv : SimpleInv)
  | dropDaily (inv : SimpleInv)
  | rebuildDaily (inv : RebuildInv)
  | addColumn (inv : AddColumnInv)
  | renameColumn (inv : RenameInv)
  | dropColumns (inv : DropColumnsInv)

/-- Result of a successful parse of the `database` command group:
either one action's namespace with its dispatch function bound via
`set_defaults(func=...)`, or no action at all (the subparser group is not
marked required, so Python argparse accepts an invocation naming no
action, leaving `func` unbound). -/
inductive ParsedAction where
  | noAction
  | create (ns : SimpleNS)
  | dropDaily (ns : SimpleNS)
  | rebuildDaily (ns : RebuildNS)
  | addColumn (ns : AddColumnNS)
  | renameColumn (ns : RenameNS)
  | dropColumns (ns : DropColumnsNS)

/-- The six actions, as bare labels. -/
inductive ActionTag where
  | create
  | dropDaily
  | rebuildDaily
  | addColumn
  | renameColumn
  | dropColumns

/-- Which action an invocation names. -/
def ActionInv.tag : ActionInv → ActionTag
  | .create _ => .create
  | .dropDaily _ => .dropDaily
  | .rebuildDaily _ => .rebuildDaily
  | .addColumn _ => .addColumn
  | .renameColumn _ => .renameColumn
  | .dropColumns _ => .dropColumns

/-- Which dispatch function a successful parse bound (`none` when the
invocation named no action, so no `func` attribute was set). -/
def ParsedAction.boundTag : ParsedAction → Option ActionTag
  | .noAction => none
  | .create _ => some .create
  | .dropDaily _ => some .dropDaily
  | .rebuildDaily _ => some .rebuildDaily
  | .addColumn _ => some .addColumn
  | .renameColumn _ => some .renameColumn
  | .dropColumns _ => some .dropColumns

/-- Parser of the whole `database` command group.  The argument is the
optional action named on the command line (`none`: no action named); the
result is `none` exactly when argparse would exit with an error. -/
def parseDatabase (inv : Option ActionInv) : Option ParsedAction :=
  match inv with
  | none => some ParsedAction.noAction
  | some (ActionInv.create i) => (parseCreate i).map ParsedAction.create
  | some (ActionInv.dropDaily i) => (parseDropDaily i).map ParsedAction.dropDaily
  | some (ActionInv.rebuildDaily i) => (parseRebuildDaily i).map ParsedAction.rebuildDaily
  | some (ActionInv.addColumn i) => (parseAddColumn i).map ParsedAction.addColumn
  | some (ActionInv.renameColumn i) => (parseRenameColumn i).map ParsedAction.renameColumn
  | some (ActionInv.dropColumns i) => (parseDropColumns i).map ParsedAction.dropColumns

end DatabaseCmd

namespace DatabaseCmd

set_option maxRecDepth 8000

/-! ### Inversion helpers for the parsers -/

/-- Successful `create` parse determines every namespace field from the
invocation: `binding` falls back to `wx_binding` when the flag is absent. -/
theorem parseCreate_fields (inv : SimpleInv) (ns : SimpleNS)
    (h : parseCreate inv = some ns) :
    ns.config = inv.config ∧ ns.binding = inv.binding.getD "wx_binding" ∧
      ns.dry_run = inv.dry_run := by
  simp only [parseCreate, Option.some.injEq] at h
  subst h
  exact ⟨rfl, rfl, rfl⟩

/-- Successful `drop-daily` parse determines every namespace field from the
invocation. -/
theorem parseDropDaily_fields (inv : SimpleInv) (ns : SimpleNS)
    (h : parseDropDaily inv = some ns) :
    ns.config = inv.config ∧ ns.binding = inv.binding.getD "wx_binding" ∧
      ns.dry_run = inv.dry_run := by
  simp only [parseDropDaily, Option.some.injEq] at h
  subst h
  exact ⟨rfl, rfl, rfl⟩

/-- Successful `rebuild-daily` parse determines every namespace field from
the invocation; the three date flags pass through unchanged. -/
theorem parseRebuildDaily_fields (inv : RebuildInv) (ns : RebuildNS)
    (h : parseRebuildDaily inv = some ns) :
    ns.config = inv.config ∧ ns.binding = inv.binding.getD "wx_binding" ∧
      ns.date = inv.date ∧ ns.from_date = inv.from_date ∧
      ns.to_date = inv.to_date ∧ ns.dry_run = inv.dry_run := by
  simp only [parseRebuildDaily, Option.some.injEq] at h
  subst h
  exact ⟨rfl, rfl, rfl, rfl, rfl, rfl⟩

/-- Successful `add-column` parse determines every namespace field from the
invocation: the positional was supplied, and `column_type` is either the
default `REAL` or the exact supplied member of `typeChoices`. -/
theorem parseAddColumn_fields (inv : AddColumnInv) (ns : AddColumnNS)
    (h : parseAddColumn inv = some ns) :
    ns.config = inv.config ∧ ns.binding = inv.binding.getD "wx_binding" ∧
      ns.dry_run = inv.dry_run ∧ inv.column_name = some ns.column_name ∧
      ((inv.column_type = none ∧ ns.column_type = "REAL") ∨
        (inv.column_type = some ns.column_type ∧ ns.column_type ∈ typeChoices)) := by
  obtain ⟨cn, ct, cf, bd, dr⟩ := inv
  cases cn with
  | none => simp [parseAddColumn] at h
  | some name =>
    cases ct with
    | none =>
      simp only [parseAddColumn, Option.some.injEq] at h
      subst h
      exact ⟨rfl, rfl, rfl, rfl, Or.inl ⟨rfl, rfl⟩⟩
    | some t =>
      simp only [parseAddColumn] at h
      by_cases hmem : t ∈ typeChoices
      · rw [if_pos hmem, Option.some.injEq] at h
        subst h
        exact ⟨rfl, rfl, rfl, rfl, Or.inr ⟨rfl, hmem⟩⟩
      · rw [if_neg hmem] at h
        exact Option.noConfusion h

/-- Successful `rename-column` parse determines every namespace field from
the invocation: both the positional and `--to-name` were supplied. -/
theorem parseRenameColumn_fields (inv : RenameInv) (ns : RenameNS)
    (h : parseRenameColumn inv = some ns) :
    ns.config = inv.config ∧ ns.binding = inv.binding.getD "wx_binding" ∧
      ns.dry_run = inv.dry_run ∧ inv.column_name = some ns.column_name ∧
      inv.new_name = some ns.new_name := by
  obtain ⟨cn, nn, cf, bd, dr⟩ := inv
  cases cn with
  | none => simp [parseRenameColumn] at h
  | some c =>
    cases nn with
    | none => simp [parseRenameColumn] at h
    | some n =>
      simp only [parseRenameColumn, Option.some.injEq] at h
      subst h
      exact ⟨rfl, rfl, rfl, rfl, rfl⟩

/-- Successful `drop-columns` parse determines every namespace field from
the invocation: the name list is nonempty and passes through unchanged. -/
theorem parseDropColumns_fields (inv : DropColumnsInv) (ns : DropColumnsNS)
    (h : parseDropColumns inv = some ns) :
    ns.config = inv.config ∧ ns.binding = inv.binding.getD "wx_binding" ∧
      ns.dry_run = inv.dry_run ∧ ns.column_names = inv.column_names ∧
      inv.column_names ≠ [] := by
  unfold parseDropColumns at h
  by_cases hnil : inv.column_names = []
  · rw [if_pos hnil] at h
    exact Option.noConfusion h
  · rw [if_neg hnil, Option.some.injEq] at h
    subst h
    exact ⟨rfl, rfl, rfl, rfl, hnil⟩

end DatabaseCmd

namespace DatabaseCmd

set_option maxRecDepth 8000

/-! ### Claim theorems -/

/-- Claim C1: the `add_column` dispatch normalizes the namespace's
`column_type` before forwarding it: any letter-casing of `int` is forwarded
as `INTEGER`, any letter-casing of `real` as `REAL`, and any letter-casing
of `integer` as `INTEGER` (upper-casing followed by mapping `INT` to
`INTEGER`). -/
theorem add_column_type_normalization (ns : AddColumnNS) :
    (ns.column_type ∈ caseVariants "int" → (add_column ns).column_type = "INTEGER") ∧
    (ns.column_type ∈ caseVariants "real" → (add_column ns).column_type = "REAL") ∧
    (ns.column_type ∈ caseVariants "integer" → (add_column ns).column_type = "INTEGER") := by
  have hrep : (add_column ns).column_type =
      (if pyUpper ns.column_type = "INT" then "INTEGER" else pyUpper ns.column_type) := rfl
  have h1 : ∀ s ∈ caseVariants "int",
      (if pyUpper s = "INT" then "INTEGER" else pyUpper s) = "INTEGER" := by decide
  have h2 : ∀ s ∈ caseVariants "real",
      (if pyUpper s = "INT" then "INTEGER" else pyUpper s) = "REAL" := by decide
  have h3 : ∀ s ∈ caseVariants "integer",
      (if pyUpper s = "INT" then "INTEGER" else pyUpper s) = "INTEGER" := by decide
  exact ⟨fun h => hrep.trans (h1 _ h), fun h => hrep.trans (h2 _ h),
    fun h => hrep.trans (h3 _ h)⟩

/-- Witness for C1 at the concrete mixed-case input `iNt`. -/
theorem add_column_type_normalization_witness :
    (add_column { config := none, binding := "wx_binding", column_name := "soilTemp1",
                  column_type := "iNt", dry_run := false }).column_type = "INTEGER" :=
  (add_column_type_normalization
    { config := none, binding := "wx_binding", column_name := "soilTemp1",
      column_type := "iNt", dry_run := false }).1 (by decide)

/-- Claim C2: every dispatch function forwards the namespace's fields
unchanged onto the named parameters of its collaborator call, and every
collaborator parameter comes from the namespace:  `create_database` and
`drop_daily` forward (config, binding, dry_run); `rebuild_daily` forwards
(config, binding, date, from_date, to_date, dry_run); `rename_column`
forwards (config, binding, column_name, new_name, dry_run); `drop_columns`
forwards (config, binding, column_names, dry_run). -/
theorem dispatch_forwards_namespace_fields (ns1 ns2 : SimpleNS) (ns3 : RebuildNS)
    (ns4 : RenameNS) (ns5 : DropColumnsNS) :
    create_database ns1 =
      { config := ns1.config, db_binding := ns1.binding, dry_run := ns1.dry_run } ∧
    drop_daily ns2 =
      { config := ns2.config, db_binding := ns2.binding, dry_run := ns2.dry_run } ∧
    rebuild_daily ns3 =
      { config := ns3.config, db_binding := ns3.binding, date := ns3.date,
        from_date := ns3.from_date, to_date := ns3.to_date, dry_run := ns3.dry_run } ∧
    rename_column ns4 =
      { config := ns4.config, db_binding := ns4.binding, column_name := ns4.column_name,
        new_name := ns4.new_name, dry_run := ns4.dry_run } ∧
    drop_columns ns5 =
      { config := ns5.config, db_binding := ns5.binding,
        column_names := ns5.column_names, dry_run := ns5.dry_run } :=
  ⟨rfl, rfl, rfl, rfl, rfl⟩

/-- Counterexample to claim C3: supplying both `--date` and `--from` parses
successfully and the dispatch forwards both values non-`None` to the
collaborator, so the two modes are not mutually exclusive in this file. -/
theorem rebuild_daily_not_exclusive_counterexample :
    parseRebuildDaily
        { config := none, binding := none, date := some "2021-01-01",
          from_date := some "2021-01-02", to_date := none, dry_run := false } =
      some { config := none, binding := "wx_binding", date := some "2021-01-01",
             from_date := some "2021-01-02", to_date := none, dry_run := false } ∧
    (rebuild_daily
        { config := none, binding := "wx_binding", date := some "2021-01-01",
          from_date := some "2021-01-02", to_date := none, dry_run := false }).date =
      some "2021-01-01" ∧
    (rebuild_daily
        { config := none, binding := "wx_binding", date := some "2021-01-01",
          from_date := some "2021-01-02", to_date := none, dry_run := false }).from_date =
      some "2021-01-02" :=
  ⟨rfl, rfl, rfl⟩

/-- Claim C3 (amended): the `rebuild-daily` parser declares no
mutually-exclusive group and the dispatch forwards `--date`, `--from` and
`--to` verbatim, whatever combination was supplied; any mutual exclusion of
the single-date and range modes is left to the collaborator. -/
theorem rebuild_daily_forwards_dates (inv : RebuildInv) (ns : RebuildNS)
    (h : parseRebuildDaily inv = some ns) :
    (rebuild_daily ns).date = inv.date ∧
      (rebuild_daily ns).from_date = inv.from_date ∧
      (rebuild_daily ns).to_date = inv.to_date := by
  obtain ⟨-, -, hd, hf, ht, -⟩ := parseRebuildDaily_fields inv ns h
  exact ⟨hd, hf, ht⟩

/-- Witness for the amended C3 at a concrete invocation supplying both
modes. -/
theorem rebuild_daily_forwards_dates_witness :
    (rebuild_daily
        { config := none, binding := "wx_binding", date := some "2021-01-01",
          from_date := some "2021-01-02", to_date := none, dry_run := false }).date =
        some "2021-01-01" ∧
      (rebuild_daily
          { config := none, binding := "wx_binding", date := some "2021-01-01",
            from_date := some "2021-01-02", to_date := none, dry_run := false }).from_date =
        some "2021-01-02" ∧
      (rebuild_daily
          { config := none, binding := "wx_binding", date := some "2021-01-01",
            from_date := some "2021-01-02", to_date := none, dry_run := false }).to_date =
        none :=
  rebuild_daily_forwards_dates
    { config := none, binding := none, date := some "2021-01-01",
      from_date := some "2021-01-02", to_date := none, dry_run := false }
    { config := none, binding := "wx_binding", date := some "2021-01-01",
      from_date := some "2021-01-02", to_date := none, dry_run := false } rfl

end DatabaseCmd

namespace DatabaseCmd

set_option maxRecDepth 8000

/-! ### Sample concrete inputs used to instantiate parameterized theorems -/

/-- A concrete `create`/`drop-daily` invocation supplying no flags. -/
def sampleSimpleInv : SimpleInv :=
  { config := none, binding := none, dry_run := false }

/-- The namespace the sample simple invocation parses to. -/
def sampleSimpleNS : SimpleNS :=
  { config := none, binding := "wx_binding", dry_run := false }

/-- A concrete `rebuild-daily` invocation supplying no flags. -/
def sampleRebuildInv : RebuildInv :=
  { config := none, binding := none, date := none, from_date := none,
    to_date := none, dry_run := false }

/-- The namespace the sample rebuild invocation parses to. -/
def sampleRebuildNS : RebuildNS :=
  { config := none, binding := "wx_binding", date := none, from_date := none,
    to_date := none, dry_run := false }

/-- A concrete `add-column` invocation supplying only the positional name. -/
def sampleAddColumnInv : AddColumnInv :=
  { column_name := some "soilTemp1", column_type := none, config := none,
    binding := none, dry_run := false }

/-- The namespace the sample add-column invocation parses to. -/
def sampleAddColumnNS : AddColumnNS :=
  { config := none, binding := "wx_binding", column_name := "soilTemp1",
    column_type := "REAL", dry_run := false }

/-- A concrete `rename-column` invocation supplying both names. -/
def sampleRenameInv : RenameInv :=
  { column_name := some "soilTemp1", new_name := some "soilTemp2",
    config := none, binding := none, dry_run := false }

/-- The namespace the sample rename invocation parses to. -/
def sampleRenameNS : RenameNS :=
  { config := none, binding := "wx_binding", column_name := "soilTemp1",
    new_name := "soilTemp2", dry_run := false }

/-- A concrete `drop-columns` invocation supplying one name. -/
def sampleDropColumnsInv : DropColumnsInv :=
  { column_names := ["soilTemp1"], config := none, binding := none,
    dry_run := false }

/-- The namespace the sample drop-columns invocation parses to. -/
def sampleDropColumnsNS : DropColumnsNS :=
  { config := none, binding := "wx_binding", column_names := ["soilTemp1"],
    dry_run := false }

/-- Counterexample to claim C4: argparse `choices` matching is exact string
equality, so the upper-case `INT` and the mixed-case `Real` — both letter-case
variants of claimed-accepted words — are rejected by the `add-column`
parser. -/
theorem add_column_type_case_counterexample :
    parseAddColumn
        { column_name := some "soilTemp1", column_type := some "INT",
          config := none, binding := none, dry_run := false } = none ∧
    parseAddColumn
        { column_name := some "soilTemp1", column_type := some "Real",
          config := none, binding := none, dry_run := false } = none :=
  ⟨rfl, rfl⟩

/-- Claim C4 (amended): with the positional name present, the `add-column`
parser accepts a supplied `--type` value exactly when it is one of the five
literal strings `REAL`, `INTEGER`, `real`, `integer`, `int`; every other
string — other casings such as `INT`, `Int` or `Real` included — is
rejected. -/
theorem add_column_type_choices_exact (inv : AddColumnInv) (t : String)
    (hname : inv.column_name.isSome = true) (ht : inv.column_type = some t) :
    ((parseAddColumn inv).isSome = true ↔ t ∈ typeChoices) := by
  obtain ⟨cn, ct, cf, bd, dr⟩ := inv
  cases cn with
  | none => simp at hname
  | some name =>
    cases ct with
    | none => simp at ht
    | some u =>
      cases Option.some.inj ht
      simp only [parseAddColumn]
      by_cases hmem : t ∈ typeChoices
      · rw [if_pos hmem]
        simp [hmem]
      · rw [if_neg hmem]
        simp [hmem]

/-- Witness for the amended C4 at the accepted concrete value `real`. -/
theorem add_column_type_choices_exact_witness :
    ((parseAddColumn
        { column_name := some "soilTemp1", column_type := some "real",
          config := none, binding := none, dry_run := false }).isSome = true ↔
      "real" ∈ typeChoices) :=
  add_column_type_choices_exact
    { column_name := some "soilTemp1", column_type := some "real",
      config := none, binding := none, dry_run := false } "real" (by decide) rfl

/-- Counterexample to claim C5: an invocation of the `database` command
group that names no action parses successfully (the subparser group is not
declared required), selecting zero actions and binding no dispatch
function. -/
theorem exactly_one_action_counterexample :
    parseDatabase none = some ParsedAction.noAction ∧
      ParsedAction.noAction.boundTag = none :=
  ⟨rfl, rfl⟩

/-- Claim C5 (amended): every successful parse of the `database` command
group binds at most one dispatch function — exactly the one of the named
subcommand when an action is named, and none at all when the invocation
names no action (which the parser accepts). -/
theorem at_most_one_action (oinv : Option ActionInv) (p : ParsedAction)
    (h : parseDatabase oinv = some p) :
    (oinv = none → p.boundTag = none) ∧
    (∀ a, oinv = some a → p.boundTag = some a.tag) := by
  constructor
  · rintro rfl
    simp only [parseDatabase, Option.some.injEq] at h
    subst h
    rfl
  · rintro a rfl
    cases a <;>
      simp only [parseDatabase, Option.map_eq_some'] at h <;>
      obtain ⟨ns, hns, rfl⟩ := h <;> rfl

/-- Witness for the amended C5: a concrete `create` invocation binds
exactly the `create` dispatch function. -/
theorem at_most_one_action_witness :
    (ParsedAction.create sampleSimpleNS).boundTag =
      some (ActionInv.create sampleSimpleInv).tag :=
  (at_most_one_action (some (ActionInv.create sampleSimpleInv))
      (ParsedAction.create sampleSimpleNS) rfl).2
    (ActionInv.create sampleSimpleInv) rfl

end DatabaseCmd

namespace DatabaseCmd

set_option maxRecDepth 8000

/-- Claim C6: for each of the six subcommands, omitting `--binding` makes
the parsed namespace's `binding` field equal `wx_binding`, and the dispatch
forwards that value as the collaborator call's `db_binding` argument. -/
theorem binding_defaults_to_wx_binding (i1 i2 : SimpleInv) (i3 : RebuildInv)
    (i4 : AddColumnInv) (i5 : RenameInv) (i6 : DropColumnsInv) :
    (i1.binding = none → ∀ ns, parseCreate i1 = some ns →
      ns.binding = "wx_binding" ∧ (create_database ns).db_binding = "wx_binding") ∧
    (i2.binding = none → ∀ ns, parseDropDaily i2 = some ns →
      ns.binding = "wx_binding" ∧ (drop_daily ns).db_binding = "wx_binding") ∧
    (i3.binding = none → ∀ ns, parseRebuildDaily i3 = some ns →
      ns.binding = "wx_binding" ∧ (rebuild_daily ns).db_binding = "wx_binding") ∧
    (i4.binding = none → ∀ ns, parseAddColumn i4 = some ns →
      ns.binding = "wx_binding" ∧ (add_column ns).db_binding = "wx_binding") ∧
    (i5.binding = none → ∀ ns, parseRenameColumn i5 = some ns →
      ns.binding = "wx_binding" ∧ (rename_column ns).db_binding = "wx_binding") ∧
    (i6.binding = none → ∀ ns, parseDropColumns i6 = some ns →
      ns.binding = "wx_binding" ∧ (drop_columns ns).db_binding = "wx_binding") := by
  refine ⟨?_, ?_, ?_, ?_, ?_, ?_⟩
  · intro hb ns h
    obtain ⟨-, hbind, -⟩ := parseCreate_fields i1 ns h
    rw [hb] at hbind
    exact ⟨hbind, hbind⟩
  · intro hb ns h
    obtain ⟨-, hbind, -⟩ := parseDropDaily_fields i2 ns h
    rw [hb] at hbind
    exact ⟨hbind, hbind⟩
  · intro hb ns h
    obtain ⟨-, hbind, -, -, -, -⟩ := parseRebuildDaily_fields i3 ns h
    rw [hb] at hbind
    exact ⟨hbind, hbind⟩
  · intro hb ns h
    obtain ⟨-, hbind, -, -, -⟩ := parseAddColumn_fields i4 ns h
    rw [hb] at hbind
    exact ⟨hbind, hbind⟩
  · intro hb ns h
    obtain ⟨-, hbind, -, -, -⟩ := parseRenameColumn_fields i5 ns h
    rw [hb] at hbind
    exact ⟨hbind, hbind⟩
  · intro hb ns h
    obtain ⟨-, hbind, -, -, -⟩ := parseDropColumns_fields i6 ns h
    rw [hb] at hbind
    exact ⟨hbind, hbind⟩

/-- Witness for C6: the six sample invocations, all omitting `--binding`,
yield `wx_binding` in the namespace and in the forwarded call. -/
theorem binding_defaults_to_wx_binding_witness :
    (sampleSimpleNS.binding = "wx_binding" ∧
      (create_database sampleSimpleNS).db_binding = "wx_binding") ∧
    (sampleSimpleNS.binding = "wx_binding" ∧
      (drop_daily sampleSimpleNS).db_binding = "wx_binding") ∧
    (sampleRebuildNS.binding = "wx_binding" ∧
      (rebuild_daily sampleRebuildNS).db_binding = "wx_binding") ∧
    (sampleAddColumnNS.binding = "wx_binding" ∧
      (add_column sampleAddColumnNS).db_binding = "wx_binding") ∧
    (sampleRenameNS.binding = "wx_binding" ∧
      (rename_column sampleRenameNS).db_binding = "wx_binding") ∧
    (sampleDropColumnsNS.binding = "wx_binding" ∧
      (drop_columns sampleDropColumnsNS).db_binding = "wx_binding") := by
  have h := binding_defaults_to_wx_binding sampleSimpleInv sampleSimpleInv
    sampleRebuildInv sampleAddColumnInv sampleRenameInv sampleDropColumnsInv
  exact ⟨h.1 rfl sampleSimpleNS rfl, h.2.1 rfl sampleSimpleNS rfl,
    h.2.2.1 rfl sampleRebuildNS rfl, h.2.2.2.1 rfl sampleAddColumnNS rfl,
    h.2.2.2.2.1 rfl sampleRenameNS rfl, h.2.2.2.2.2 rfl sampleDropColumnsNS rfl⟩

/-- Claim C7: the `rename-column` parser fails whenever `--to-name` is
omitted (it is declared required), and on every successful parse the
dispatch forwards the supplied `--to-name` value as `new_name` and the
positional FROM-NAME as `column_name`. -/
theorem rename_column_requires_to_name (inv : RenameInv) :
    (inv.new_name = none → parseRenameColumn inv = none) ∧
    (∀ ns, parseRenameColumn inv = some ns →
      inv.new_name = some ((rename_column ns).new_name) ∧
      inv.column_name = some ((rename_column ns).column_name)) := by
  constructor
  · intro hn
    obtain ⟨cn, nn, cf, bd, dr⟩ := inv
    cases nn with
    | none => cases cn <;> rfl
    | some n => simp at hn
  · intro ns h
    obtain ⟨-, -, -, hcn, hnn⟩ := parseRenameColumn_fields inv ns h
    exact ⟨hnn, hcn⟩

/-- Witness for C7 at the sample rename invocation. -/
theorem rename_column_requires_to_name_witness :
    sampleRenameInv.new_name = some ((rename_column sampleRenameNS).new_name) ∧
      sampleRenameInv.column_name = some ((rename_column sampleRenameNS).column_name) :=
  (rename_column_requires_to_name sampleRenameInv).2 sampleRenameNS rfl

/-- Claim C8: the `drop-columns` parser fails on an empty name list
(`nargs` is `+`), and on every successful parse the dispatch forwards
exactly the given list, in order, as the collaborator's `column_names`
argument. -/
theorem drop_columns_requires_names (inv : DropColumnsInv) :
    (inv.column_names = [] → parseDropColumns inv = none) ∧
    (∀ ns, parseDropColumns inv = some ns →
      inv.column_names ≠ [] ∧
        (drop_columns ns).column_names = inv.column_names) := by
  constructor
  · intro hn
    unfold parseDropColumns
    rw [if_pos hn]
  · intro ns h
    obtain ⟨-, -, -, hcols, hne⟩ := parseDropColumns_fields inv ns h
    exact ⟨hne, hcols⟩

/-- Witness for C8 at the sample drop-columns invocation. -/
theorem drop_columns_requires_names_witness :
    sampleDropColumnsInv.column_names ≠ [] ∧
      (drop_columns sampleDropColumnsNS).column_names =
        sampleDropColumnsInv.column_names :=
  (drop_columns_requires_names sampleDropColumnsInv).2 sampleDropColumnsNS rfl

/-- Claim C9: for each of the six subcommands, the `dry_run` value the
dispatch forwards to the collaborator is a `Bool` (never a missing value,
since `store_true` defaults the field to `False`), equal to whether
`--dry-run` was present on the invocation. -/
theorem dry_run_forwarded (i1 i2 : SimpleInv) (i3 : RebuildInv)
    (i4 : AddColumnInv) (i5 : RenameInv) (i6 : DropColumnsInv) :
    (∀ ns, parseCreate i1 = some ns →
      (create_database ns).dry_run = i1.dry_run) ∧
    (∀ ns, parseDropDaily i2 = some ns →
      (drop_daily ns).dry_run = i2.dry_run) ∧
    (∀ ns, parseRebuildDaily i3 = some ns →
      (rebuild_daily ns).dry_run = i3.dry_run) ∧
    (∀ ns, parseAddColumn i4 = some ns →
      (add_column ns).dry_run = i4.dry_run) ∧
    (∀ ns, parseRenameColumn i5 = some ns →
      (rename_column ns).dry_run = i5.dry_run) ∧
    (∀ ns, parseDropColumns i6 = some ns →
      (drop_columns ns).dry_run = i6.dry_run) := by
  refine ⟨?_, ?_, ?_, ?_, ?_, ?_⟩
  · intro ns h
    obtain ⟨-, -, hdr⟩ := parseCreate_fields i1 ns h
    exact hdr
  · intro ns h
    obtain ⟨-, -, hdr⟩ := parseDropDaily_fields i2 ns h
    exact hdr
  · intro ns h
    obtain ⟨-, -, -, -, -, hdr⟩ := parseRebuildDaily_fields i3 ns h
    exact hdr
  · intro ns h
    obtain ⟨-, -, hdr, -, -⟩ := parseAddColumn_fields i4 ns h
    exact hdr
  · intro ns h
    obtain ⟨-, -, hdr, -, -⟩ := parseRenameColumn_fields i5 ns h
    exact hdr
  · intro ns h
    obtain ⟨-, -, hdr, -, -⟩ := parseDropColumns_fields i6 ns h
    exact hdr

/-- Witness for C9: the six sample invocations, all omitting `--dry-run`,
forward `false`. -/
theorem dry_run_forwarded_witness :
    (create_database sampleSimpleNS).dry_run = sampleSimpleInv.dry_run ∧
    (drop_daily sampleSimpleNS).dry_run = sampleSimpleInv.dry_run ∧
    (rebuild_daily sampleRebuildNS).dry_run = sampleRebuildInv.dry_run ∧
    (add_column sampleAddColumnNS).dry_run = sampleAddColumnInv.dry_run ∧
    (rename_column sampleRenameNS).dry_run = sampleRenameInv.dry_run ∧
    (drop_columns sampleDropColumnsNS).dry_run = sampleDropColumnsInv.dry_run := by
  have h := dry_run_forwarded sampleSimpleInv sampleSimpleInv sampleRebuildInv
    sampleAddColumnInv sampleRenameInv sampleDropColumnsInv
  exact ⟨h.1 sampleSimpleNS rfl, h.2.1 sampleSimpleNS rfl,
    h.2.2.1 sampleRebuildNS rfl, h.2.2.2.1 sampleAddColumnNS rfl,
    h.2.2.2.2.1 sampleRenameNS rfl, h.2.2.2.2.2 sampleDropColumnsNS rfl⟩

/-- Claim C10: when `--type` is omitted the `add-column` dispatch forwards
`column_type` as `REAL` (the parser default), and for every parser-accepted
invocation the forwarded `column_type` lies in the set of the two strings
REAL and INTEGER. -/
theorem add_column_default_type (inv : AddColumnInv) (ns : AddColumnNS)
    (h : parseAddColumn inv = some ns) :
    (inv.column_type = none → (add_column ns).column_type = "REAL") ∧
    ((add_column ns).column_type = "REAL" ∨
      (add_column ns).column_type = "INTEGER") := by
  obtain ⟨-, -, -, -, hty⟩ := parseAddColumn_fields inv ns h
  have hrep : (add_column ns).column_type =
      (if pyUpper ns.column_type = "INT" then "INTEGER" else pyUpper ns.column_type) := rfl
  have hchoices : ∀ s ∈ typeChoices,
      ((if pyUpper s = "INT" then "INTEGER" else pyUpper s) = "REAL" ∨
        (if pyUpper s = "INT" then "INTEGER" else pyUpper s) = "INTEGER") := by decide
  rcases hty with ⟨hn, hreal⟩ | ⟨hsome, hmem⟩
  · constructor
    · intro hnone
      rw [hrep, hreal]
      decide
    · left
      rw [hrep, hreal]
      decide
  · constructor
    · intro hnone
      rw [hnone] at hsome
      exact Option.noConfusion hsome
    · rw [hrep]
      exact hchoices _ hmem

/-- Witness for C10 at the sample add-column invocation, which omits
`--type`. -/
theorem add_column_default_type_witness :
    (add_column sampleAddColumnNS).column_type = "REAL" :=
  (add_column_default_type sampleAddColumnInv sampleAddColumnNS rfl).1 rfl

end DatabaseCmd
